import Mathlib

/-!
Verification of the Architects Hand Bridge automation engine against its
specification.  The definitions below shallowly embed the browser
controller of src/src/bridge/browser-controller.js: its coordinate
conversion, its action dispatcher, and its lifecycle state machine.
Components whose executing code is not part of the repository snapshot
(the self-healing chain and the loop detector of the tool server) are
modelled from the specification and marked as such in their doc comments.
-/

namespace Bridge

/-- Rounding as performed by the JavaScript Math.round builtin: round half
toward positive infinity, i.e. the floor of the argument plus one half. -/
def jsRound (q : ℚ) : ℤ := ⌊q + 1/2⌋

/-- Viewport (or screen) dimensions of a session, in pixels.  In
browser-controller.js these are the instance fields viewportWidth and
viewportHeight read by convertCoords. -/
structure Dims where
  width : ℤ
  height : ℤ
deriving DecidableEq, Repr

/-- The fixed viewport set in the BrowserController constructor:
viewportWidth = 1280, viewportHeight = 800. -/
def defaultViewport : Dims := ⟨1280, 800⟩

/-- One scalar of the conversion in convertCoords when the normalized flag
is set: Math.round((v / 1000) * dim). -/
def convertCoord (v : ℤ) (dim : ℤ) : ℤ := jsRound ((v : ℚ) / 1000 * (dim : ℚ))

/-- Embedding of convertCoords(x, y, normalized) from
browser-controller.js.  When the normalized flag is true each component is
scaled from the 0-1000 normalized range to the viewport dimensions and
rounded; otherwise the point is returned unchanged. -/
def convertCoords (x y : ℤ) (dims : Dims) (normalized : Bool) : ℤ × ℤ :=
  if normalized then (convertCoord x dims.width, convertCoord y dims.height)
  else (x, y)

/-- The two coordinate spaces reachable by the controller code: the
normalized source space of the external provider and the viewport pixel
space of the session. -/
inductive Space where
  | normalized
  | viewport
deriving DecidableEq, Repr

/-- The space-to-space conversions realizable through convertCoords.  The
call with the normalized flag set implements normalized to viewport; a
point whose source space equals its target space is passed with the flag
unset, which is the identity.  No other direction exists in the code, so
converting from viewport back to normalized has no value. -/
def convert (p : ℤ × ℤ) (a b : Space) (dims : Dims) : Option (ℤ × ℤ) :=
  if a = b then some (convertCoords p.1 p.2 dims false)
  else
    match a, b with
    | Space.normalized, Space.viewport => some (convertCoords p.1 p.2 dims true)
    | _, _ => none

/-- Option-lifted convertCoords, as used inside executeAction where the
action fields may be absent (a missing JavaScript field propagates through
the arithmetic as NaN; the absent case is modelled by none). -/
def convertCoordsOpt (x y : Option ℤ) (dims : Dims) (normalized : Bool) :
    Option ℤ × Option ℤ :=
  if normalized then
    (x.map (fun v => convertCoord v dims.width),
     y.map (fun v => convertCoord v dims.height))
  else (x, y)

/-- An action object as received by executeAction.  Fields mirror the
properties read from the JavaScript action object; absent fields are
modelled as none (or an empty list for files). -/
structure Action where
  type : String
  x : Option ℤ := none
  y : Option ℤ := none
  startX : Option ℤ := none
  startY : Option ℤ := none
  endX : Option ℤ := none
  endY : Option ℤ := none
  text : Option String := none
  key : Option String := none
  keys : Option (List String) := none
  combo : Option String := none
  direction : Option String := none
  count : Option ℤ := none
  amount : Option ℤ := none
  duration : Option ℤ := none
  url : Option String := none
  selector : Option String := none
  value : Option String := none
  files : List String := []
  normalized : Bool := false
deriving DecidableEq, Repr

/-- One call into the Playwright backend (page.mouse, page.keyboard,
page.goto, page.selectOption, locator.setInputFiles).  Coordinate
arguments are optional to model NaN propagation from absent fields. -/
inductive BackendCall where
  | click (x y : Option ℤ)
  | dblclick (x y : Option ℤ)
  | rightclick (x y : Option ℤ)
  | mouseMove (x y : Option ℤ)
  | mouseDown
  | mouseUp
  | wheel (dx dy : ℤ)
  | typeText (t : String)
  | pressKey (k : Option String)
  | keyDown (k : String)
  | keyUp (k : String)
  | gotoUrl (u : Option String)
  | selectOption (sel v : Option String)
  | setInputFiles (sel : String) (fs : List String)
deriving DecidableEq, Repr

/-- Observable event of one executeAction run: a backend call, a pure
delay, a console warning, or an exception thrown in controller code
before any backend call (the type helper dereferences text.substring in
its log template, so an absent text field throws a TypeError there).
Plain console.log calls are otherwise elided. -/
inductive Event where
  | backend (c : BackendCall)
  | wait (ms : ℤ)
  | warn (msg : String)
  | jsError (msg : String)
deriving DecidableEq, Repr

/-- JavaScript-style defaulting for numeric fields, as in
action.count || 1: an absent or zero (falsy) value yields the default. -/
def jsOr (v : Option ℤ) (d : ℤ) : ℤ :=
  match v with
  | some n => if n = 0 then d else n
  | none => d

/-- JavaScript-style defaulting for string fields, as in
action.direction || down: an absent or empty (falsy) value yields the
default. -/
def jsOrStr (v : Option String) (d : String) : String :=
  match v with
  | some s => if s = "" then d else s
  | none => d

/-- Key-name normalization performed by the hotkey helper before sending
keys to Playwright. -/
def normalizeKey (key : String) : String :=
  let lower := key.toLower
  if lower = "ctrl" then "Control"
  else if lower = "cmd" then "Meta"
  else if lower = "command" then "Meta"
  else if lower = "alt" then "Alt"
  else if lower = "shift" then "Shift"
  else if lower = "enter" then "Enter"
  else if lower = "tab" then "Tab"
  else if lower = "escape" then "Escape"
  else if lower = "esc" then "Escape"
  else if lower = "backspace" then "Backspace"
  else if lower = "delete" then "Delete"
  else if lower = "space" then "Space"
  else if lower = "up" then "ArrowUp"
  else if lower = "down" then "ArrowDown"
  else if lower = "left" then "ArrowLeft"
  else if lower = "right" then "ArrowRight"
  else key

/-- Backend calls of the hotkey helper: key-down for every key but the
last, a press of the last key, then key-up in reverse order. -/
def hotkeyPlan (keys : List String) : List Event :=
  let norm := keys.map normalizeKey
  norm.dropLast.map (fun k => Event.backend (BackendCall.keyDown k)) ++
  [Event.backend (BackendCall.pressKey norm.getLast?)] ++
  norm.dropLast.reverse.map (fun k => Event.backend (BackendCall.keyUp k))

/-- Backend calls of scrollAt: move the mouse to the anchor, then repeat
a wheel event of 100 pixels plus a 100 ms pause, count times. -/
def scrollAtPlan (x y : Option ℤ) (direction : String) (count : ℤ) : List Event :=
  let deltaY : ℤ := if direction = "up" then -100 else 100
  Event.backend (BackendCall.mouseMove x y) ::
  (List.replicate count.toNat [Event.backend (BackendCall.wheel 0 deltaY), Event.wait 100]).flatten

/-- Backend call of the simple scroll helper: one wheel event of the
requested amount. -/
def scrollPlan (direction : String) (amount : ℤ) : List Event :=
  let deltaY : ℤ := if direction = "up" then -amount else amount
  [Event.backend (BackendCall.wheel 0 deltaY)]

/-- The planned effect sequence of the switch statement of executeAction,
one branch per case label of the source, for one action against the
current viewport dimensions.  Cases sharing a body in the source share a
branch here via disjunction; the done, complete and call_user cases only
log and produce no events; the default case produces the warning of the
source.  The type and input cases call the type helper, whose log
template dereferences text.substring before the backend call, so an
absent text field throws a TypeError instead of reaching the backend. -/
def dispatchPlan (a : Action) (dims : Dims) : List Event :=
  let normalized := a.normalized
  let t := a.type
  if t = "click" then
    let p := convertCoordsOpt a.x a.y dims normalized
    [Event.backend (BackendCall.click p.1 p.2)]
  else if t = "double_click" ∨ t = "doubleClick" ∨ t = "doubleclick" then
    let p := convertCoordsOpt a.x a.y dims normalized
    [Event.backend (BackendCall.dblclick p.1 p.2)]
  else if t = "right_click" ∨ t = "rightClick" ∨ t = "rightclick" then
    let p := convertCoordsOpt a.x a.y dims normalized
    [Event.backend (BackendCall.rightclick p.1 p.2)]
  else if t = "type" ∨ t = "input" then
    match a.text with
    | some txt => [Event.backend (BackendCall.typeText txt)]
    | none =>
      [Event.jsError "TypeError: Cannot read properties of undefined (reading substring)"]
  else if t = "hotkey" then
    hotkeyPlan (match a.keys with
      | some ks => ks
      | none => match a.combo with
        | some c => c.splitOn "+"
        | none => [])
  else if t = "press" ∨ t = "key" then
    [Event.backend (BackendCall.pressKey a.key)]
  else if t = "scroll" then
    if a.x.isSome && a.y.isSome then
      let p := convertCoordsOpt a.x a.y dims normalized
      scrollAtPlan p.1 p.2 (jsOrStr a.direction "down") (jsOr a.count 1)
    else
      scrollPlan (jsOrStr a.direction "down") (jsOr a.amount 300)
  else if t = "wait" then
    [Event.wait (jsOr a.duration 1000)]
  else if t = "goto" ∨ t = "navigate" then
    [Event.backend (BackendCall.gotoUrl a.url)]
  else if t = "hover" then
    let p := convertCoordsOpt a.x a.y dims normalized
    [Event.backend (BackendCall.mouseMove p.1 p.2)]
  else if t = "drag" then
    let s := convertCoordsOpt a.startX a.startY dims normalized
    let e := convertCoordsOpt a.endX a.endY dims normalized
    [Event.backend (BackendCall.mouseMove s.1 s.2),
     Event.backend BackendCall.mouseDown,
     Event.backend (BackendCall.mouseMove e.1 e.2),
     Event.backend BackendCall.mouseUp]
  else if t = "select" then
    [Event.backend (BackendCall.selectOption a.selector a.value)]
  else if t = "upload" then
    [Event.backend (BackendCall.setInputFiles
      (jsOrStr a.selector "input[type=\"file\"]") a.files)]
  else if t = "done" ∨ t = "complete" then
    []
  else if t = "call_user" then
    []
  else
    [Event.warn ("[Browser] Unknown action type: " ++ t)]

/-- Result of running executeAction: the events that actually happened, and
the error it rejected with, if any (none means it returned normally). -/
structure ExecResult where
  events : List Event
  error : Option String
deriving DecidableEq, Repr

/-- Replays a planned event sequence against a backend whose calls may
reject.  An awaited backend rejection propagates out of executeAction at
once, so nothing after the failing call runs; the failing call itself was
made and stays in the trace.  A controller-level throw likewise
propagates at once, with no backend involvement. -/
def execPlan (fail : BackendCall → Bool) : List Event → ExecResult
  | [] => ⟨[], none⟩
  | Event.backend c :: rest =>
    if fail c then ⟨[Event.backend c], some "BackendExecutionError"⟩
    else
      let r := execPlan fail rest
      ⟨Event.backend c :: r.events, r.error⟩
  | Event.jsError m :: _ => ⟨[Event.jsError m], some m⟩
  | e :: rest =>
    let r := execPlan fail rest
    ⟨e :: r.events, r.error⟩

/-- Embedding of executeAction from browser-controller.js: it throws
Browser not launched when no page exists, otherwise runs the switch case
for the action type followed by the final 300 ms settle delay, subject to
backend failures interrupting execution. -/
def executeAction (hasPage : Bool) (fail : BackendCall → Bool) (a : Action)
    (dims : Dims) : ExecResult :=
  if hasPage then execPlan fail (dispatchPlan a dims ++ [Event.wait 300])
  else ⟨[], some "Browser not launched"⟩


/-- The mutable state of the BrowserController instance: the optional
browser, context and page handles, the isRunning flag, and a supply of
fresh backend handles used to model allocation by chromium.launch,
newContext and newPage. -/
structure BrowserState where
  browser : Option ℕ
  context : Option ℕ
  page : Option ℕ
  isRunning : Bool
  nextHandle : ℕ
deriving DecidableEq, Repr

/-- The state built by the BrowserController constructor: no browser, no
context, no page, not running.  The module exports exactly one instance
constructed this way (module.exports = new BrowserController()), so this
is the initial state of the single process-wide controller. -/
def initialState : BrowserState := ⟨none, none, none, false, 0⟩

/-- Backend lifecycle events observable during launch and close. -/
inductive LifeEvent where
  | closedPage (h : ℕ)
  | closedContext (h : ℕ)
  | closedBrowser (h : ℕ)
  | launchedBrowser (h : ℕ)
  | launchedContext (h : ℕ)
  | launchedPage (h : ℕ)
deriving DecidableEq, Repr

/-- Embedding of close from browser-controller.js: closes the page, the
context and the browser in that order when present (each close call has
its rejection swallowed, so close never throws), nulls the three fields
and clears isRunning. -/
def close (s : BrowserState) : BrowserState × List LifeEvent :=
  let pe := match s.page with
    | some h => [LifeEvent.closedPage h]
    | none => []
  let ce := match s.context with
    | some h => [LifeEvent.closedContext h]
    | none => []
  let be := match s.browser with
    | some h => [LifeEvent.closedBrowser h]
    | none => []
  (⟨none, none, none, false, s.nextHandle⟩, pe ++ ce ++ be)

/-- Embedding of launch from browser-controller.js: when a browser is
already open it is closed first via close, then a fresh browser, context
and page are created and isRunning is set. -/
def launch (s : BrowserState) : BrowserState × List LifeEvent :=
  let closed := if s.browser.isSome then close s else (s, [])
  let b := closed.1.nextHandle
  (⟨some b, some (b + 1), some (b + 2), true, b + 3⟩,
   closed.2 ++ [LifeEvent.launchedBrowser b, LifeEvent.launchedContext (b + 1),
     LifeEvent.launchedPage (b + 2)])

/-- Embedding of isActive from browser-controller.js. -/
def isActive (s : BrowserState) : Bool :=
  s.isRunning && s.browser.isSome && s.page.isSome

/-- A lifecycle operation invoked on the controller. -/
inductive LifeOp where
  | launch
  | close
deriving DecidableEq, Repr

/-- Applies one lifecycle operation to the controller state. -/
def applyOp (s : BrowserState) : LifeOp → BrowserState × List LifeEvent
  | LifeOp.launch => launch s
  | LifeOp.close => close s

/-- Runs a sequence of lifecycle operations, collecting the full event
trace. -/
def runOps (s : BrowserState) : List LifeOp → BrowserState × List LifeEvent
  | [] => (s, [])
  | o :: rest =>
    let r := applyOp s o
    let r2 := runOps r.1 rest
    (r2.1, r.2 ++ r2.2)

/-- Folds one lifecycle event into the set of browser handles launched and
not yet closed. -/
def liveStep (acc : List ℕ) : LifeEvent → List ℕ
  | LifeEvent.launchedBrowser h => acc ++ [h]
  | LifeEvent.closedBrowser h => acc.erase h
  | _ => acc

/-- The browser handles launched during a trace and never closed
afterwards: the concurrently live browser sessions at the end of the
trace. -/
def liveBrowsers (tr : List LifeEvent) : List ℕ := tr.foldl liveStep []


/-- Modelled from the spec: the element returned by the element-lookup
healing step (the repository snapshot contains only the tool-server API
documentation for this component, not its executing code).  The element
has a bounding rectangle and an interactivity flag. -/
structure PageElement where
  left : ℚ
  top : ℚ
  width : ℚ
  height : ℚ
  interactive : Bool

/-- Modelled from the spec: the kind of pointer dispatch the self-healing
chain may issue. -/
inductive ClickKind where
  | single
  | double
deriving DecidableEq, Repr

/-- Modelled from the spec: the backend as seen by the self-healing
executor - whether a click dispatch at a point succeeds, and which
element, if any, occupies a point. -/
structure HealEnv where
  dispatch : ℚ × ℚ → ClickKind → Bool
  elementAt : ℚ × ℚ → Option PageElement

/-- Modelled from the spec: the ActionResult fields the self-healing
chain is responsible for. -/
structure HealResult where
  success : Bool
  healed : Bool
  healingMethod : Option String
  attempts : List String
deriving DecidableEq, Repr

/-- Geometric center of an element, the retarget point of the
element-lookup healing step. -/
def elementCenter (el : PageElement) : ℚ × ℚ :=
  (el.left + el.width / 2, el.top + el.height / 2)

/-- Modelled from the spec: step 3 of the healing chain - redispatch a
failed single click as a double click, else report exhaustion with the
ordered list of attempted strategies. -/
def healStepDouble (env : HealEnv) (p : ℚ × ℚ) (tried : List String) : HealResult :=
  if env.dispatch p ClickKind.double then
    ⟨true, true, some "double_click", tried ++ ["double_click"]⟩
  else
    ⟨false, false, none, tried ++ ["double_click"]⟩

/-- Modelled from the spec: the ordered self-healing chain for a browser
click (spec section 4.4).  Step 1 dispatches the click as requested; on
failure step 2 looks up the element at the requested point and, when one
is found and is interactive, redispatches at its geometric center,
recording healingMethod element_center on success; step 3 retries as a
double click; otherwise the chain is exhausted. -/
def selfHealClick (env : HealEnv) (p : ℚ × ℚ) : HealResult :=
  if env.dispatch p ClickKind.single then
    ⟨true, false, none, ["primary"]⟩
  else
    match env.elementAt p with
    | some el =>
      if el.interactive then
        if env.dispatch (elementCenter el) ClickKind.single then
          ⟨true, true, some "element_center", ["primary", "element_center"]⟩
        else
          healStepDouble env p ["primary", "element_center"]
      else
        healStepDouble env p ["primary"]
    | none =>
      healStepDouble env p ["primary"]

/-- Modelled from the spec: one entry of the per-session action history
ring buffer (spec section 3).  Only the fields inspected by the loop
detector are carried: the action type and, for spatial actions, the
issued coordinates. -/
structure HEntry where
  actionType : String
  coord : Option (ℤ × ℤ)
deriving DecidableEq, Repr

/-- Two points lie within the loop-detection tolerance window: within 50
units on both axes. -/
def near (a b : ℤ × ℤ) : Bool :=
  (a.1 - b.1).natAbs ≤ 50 && (a.2 - b.2).natAbs ≤ 50

/-- Tolerance check lifted to optionally-spatial entries: the coordinate
window only constrains spatial actions. -/
def coordNear (a b : Option (ℤ × ℤ)) : Bool :=
  match a, b with
  | some p, some q => near p q
  | _, _ => true

/-- Modelled from the spec: the three most recent entries form a loop when
they all share one action type and, for spatial types, their coordinates
fall pairwise within the tolerance window. -/
def loopTriple (e1 e2 e3 : HEntry) : Bool :=
  (e1.actionType == e2.actionType && e2.actionType == e3.actionType) &&
  (coordNear e1.coord e2.coord && coordNear e1.coord e3.coord &&
    coordNear e2.coord e3.coord)

/-- Modelled from the spec: append one entry to the bounded ring buffer,
keeping only the last 10 entries. -/
def pushBounded (buf : List HEntry) (e : HEntry) : List HEntry :=
  (buf ++ [e]).drop (buf.length + 1 - 10)

/-- Modelled from the spec: on each new entry, inspect the last three
entries of the buffer; fewer than three entries never flag. -/
def detect (buf : List HEntry) : Bool :=
  match buf.reverse with
  | e3 :: e2 :: e1 :: _ => loopTriple e1 e2 e3
  | _ => false

/-- One step of the loop-detector stream: push the entry, then emit the
advisory flag computed from the updated buffer alongside the entry. -/
def detStep (acc : List HEntry × List Bool) (e : HEntry) : List HEntry × List Bool :=
  let buf := pushBounded acc.1 e
  (buf, acc.2 ++ [detect buf])

/-- Runs the loop detector over a whole action stream, returning the final
buffer and the per-action LoopDetected flags. -/
def runDetector (es : List HEntry) : List HEntry × List Bool :=
  es.foldl detStep ([], [])

/-- The LoopDetected flag emitted alongside each action of a stream. -/
def loopFlags (es : List HEntry) : List Bool := (runDetector es).2


/-- C10: converting a point whose source space equals its target space
(equivalently, a point not flagged as normalized) is the identity: the
returned point equals the input point unchanged. -/
theorem claim_C10_same_space_identity :
    ∀ (x y : ℤ) (dims : Dims), convertCoords x y dims false = (x, y) := by
  intro x y dims
  rfl

/-- C1 counterexample: converting (400, 200) from the normalized space to
a 1280 by 720 viewport yields (512, 144), not the (406, 206) the claim
derives from a 1260 by 700 reference resolution; the reference of the
code is the 0-1000 range. -/
theorem claim_C1_counterexample :
    convertCoords 400 200 ⟨1280, 720⟩ true = (512, 144) ∧
    ((512 : ℤ), (144 : ℤ)) ≠ ((406 : ℤ), (206 : ℤ)) := by
  constructor
  · norm_num [convertCoords, convertCoord, jsRound]
  · decide

/-- C1 amended: converting a normalized point to viewport pixels
multiplies each component by targetDimension over referenceDimension with
the fixed reference 1000 by 1000 (the 0-1000 normalized range) and rounds;
in particular (400, 200) against a 1280 by 720 viewport yields (512, 144),
and against the controller default 1280 by 800 viewport yields (512, 160).
No scale factors are reported. -/
theorem claim_C1_normalized_scaling :
    (∀ (x y w h : ℤ), convertCoords x y ⟨w, h⟩ true =
      (jsRound ((x : ℚ) * w / 1000), jsRound ((y : ℚ) * h / 1000))) ∧
    convertCoords 400 200 ⟨1280, 720⟩ true = (512, 144) ∧
    convertCoords 400 200 defaultViewport true = (512, 160) := by
  refine ⟨?_, ?_, ?_⟩
  · intro x y w h
    simp only [convertCoords, convertCoord, if_true]
    rw [div_mul_eq_mul_div]
    rw [div_mul_eq_mul_div]
  · norm_num [convertCoords, convertCoord, jsRound]
  · norm_num [convertCoords, convertCoord, jsRound, defaultViewport]

/-- C4 counterexample: the round trip fails on the space pair from
normalized to viewport with a 1280 by 720 viewport - the forward
conversion yields (512, 144) but no conversion from viewport back to
normalized exists in the code; moreover the forward map is not injective
(with a 500-wide viewport both (1, 0) and (2, 0) map to the same pixel),
so no inverse within tolerance can exist at all. -/
theorem claim_C4_counterexample :
    convert (400, 200) Space.normalized Space.viewport ⟨1280, 720⟩ = some (512, 144) ∧
    convert (512, 144) Space.viewport Space.normalized ⟨1280, 720⟩ = none ∧
    convert (1, 0) Space.normalized Space.viewport ⟨500, 500⟩ =
      convert (2, 0) Space.normalized Space.viewport ⟨500, 500⟩ ∧
    ((1 : ℤ), (0 : ℤ)) ≠ ((2 : ℤ), (0 : ℤ)) := by
  refine ⟨?_, ?_, ?_, by decide⟩
  · norm_num [convert, convertCoords, convertCoord, jsRound]
    decide
  · rfl
  · norm_num [convert, convertCoords, convertCoord, jsRound]
    decide

/-- C4 amended: the round trip holds for every pair of equal spaces (the
identity conversion), while for the distinct pair the code only provides
the direction from normalized to viewport: converting from viewport back
to normalized is unsupported for every point and every dimension, so the
two-way round trip of the claim is unrealizable. -/
theorem claim_C4_roundtrip :
    (∀ (sp : Space) (p : ℤ × ℤ) (dims : Dims), convert p sp sp dims = some p) ∧
    (∀ (p : ℤ × ℤ) (dims : Dims),
      convert p Space.viewport Space.normalized dims = none) := by
  constructor
  · intro sp p dims
    simp [convert, convertCoords]
  · intro p dims
    rfl


/-- Replaying a plan that contains no controller-level throw against a
backend that never fails performs every planned event and returns
normally. -/
theorem execPlan_noFail (l : List Event) (h : ∀ m, Event.jsError m ∉ l) :
    execPlan (fun _ => false) l = ⟨l, none⟩ := by
  induction l with
  | nil => rfl
  | cons e rest ih =>
    have hrest : ∀ m, Event.jsError m ∉ rest := fun m hm =>
      h m (List.mem_cons_of_mem _ hm)
    cases e with
    | backend c => simp [execPlan, ih hrest]
    | wait ms => simp [execPlan, ih hrest]
    | warn msg => simp [execPlan, ih hrest]
    | jsError msg => exact absurd (List.mem_cons_self _ _) (h msg)

/-- C2 counterexample: a click at (1500, 200) against a 1280 by 720
viewport does not fail with a ValidationError - executeAction returns
normally and the backend receives the out-of-bounds coordinates
unchanged. -/
theorem claim_C2_counterexample :
    executeAction true (fun _ => false)
      { type := "click", x := some 1500, y := some 200 } ⟨1280, 720⟩ =
      ⟨[Event.backend (BackendCall.click (some 1500) (some 200)), Event.wait 300],
        none⟩ := by
  rfl

/-- C2 amended: click, hover and drag actions undergo no bounds
validation at all: for every coordinate pair, in range or not, and every
session dimensions, the coordinates are forwarded to the backend
unchanged (never clamped) and the call returns without error. -/
theorem claim_C2_no_bounds_validation (x y : ℤ) (dims : Dims) :
    executeAction true (fun _ => false)
      { type := "click", x := some x, y := some y } dims =
      ⟨[Event.backend (BackendCall.click (some x) (some y)), Event.wait 300], none⟩ ∧
    executeAction true (fun _ => false)
      { type := "hover", x := some x, y := some y } dims =
      ⟨[Event.backend (BackendCall.mouseMove (some x) (some y)), Event.wait 300],
        none⟩ ∧
    executeAction true (fun _ => false)
      { type := "drag", startX := some x, startY := some y,
        endX := some x, endY := some y } dims =
      ⟨[Event.backend (BackendCall.mouseMove (some x) (some y)),
        Event.backend BackendCall.mouseDown,
        Event.backend (BackendCall.mouseMove (some x) (some y)),
        Event.backend BackendCall.mouseUp, Event.wait 300], none⟩ :=
  ⟨rfl, rfl, rfl⟩

/-- C6 counterexample: when the backend click rejects, executeAction
propagates the failure at once and the 300 ms settle delay is skipped, so
the delay is not performed regardless of backend success. -/
theorem claim_C6_counterexample :
    executeAction true
      (fun c => match c with | BackendCall.click _ _ => true | _ => false)
      { type := "click", x := some 100, y := some 100 } defaultViewport =
      ⟨[Event.backend (BackendCall.click (some 100) (some 100))],
        some "BackendExecutionError"⟩ ∧
    Event.wait 300 ∉
      (executeAction true
        (fun c => match c with | BackendCall.click _ _ => true | _ => false)
        { type := "click", x := some 100, y := some 100 } defaultViewport).events := by
  constructor
  · rfl
  · decide

/-- The hotkey helper emits only backend key events, never a throw. -/
theorem jsError_not_mem_hotkeyPlan (ks : List String) (m : String) :
    Event.jsError m ∉ hotkeyPlan ks := by
  intro hmem
  simp only [hotkeyPlan] at hmem
  rcases List.mem_append.mp hmem with h12 | h3
  · rcases List.mem_append.mp h12 with h1 | h2
    · obtain ⟨k, _, he⟩ := List.mem_map.mp h1
      exact absurd he (by simp)
    · simp at h2
  · obtain ⟨k, _, he⟩ := List.mem_map.mp h3
    exact absurd he (by simp)

/-- The scrollAt helper emits only the mouse move, wheel events and
pauses, never a throw. -/
theorem jsError_not_mem_scrollAtPlan (x y : Option ℤ) (dir : String) (c : ℤ)
    (m : String) : Event.jsError m ∉ scrollAtPlan x y dir c := by
  intro hmem
  simp only [scrollAtPlan] at hmem
  rcases List.mem_cons.mp hmem with he | hrest
  · simp at he
  · obtain ⟨l, hl, hmem2⟩ := List.mem_flatten.mp hrest
    rw [List.eq_of_mem_replicate hl] at hmem2
    simp at hmem2

/-- The simple scroll helper emits only one wheel event, never a throw. -/
theorem jsError_not_mem_scrollPlan (dir : String) (amt : ℤ) (m : String) :
    Event.jsError m ∉ scrollPlan dir amt := by
  simp [scrollPlan]

set_option maxHeartbeats 1600000 in
/-- An action dispatch throws no controller-level error unless it is a
type or input action with an absent text field - the only throw site in
the switch is the substring dereference of the type helper. -/
theorem dispatchPlan_no_jsError (a : Action) (dims : Dims)
    (h : (a.type = "type" ∨ a.type = "input") → a.text ≠ none) :
    ∀ m, Event.jsError m ∉ dispatchPlan a dims := by
  intro m
  simp only [dispatchPlan]
  by_cases h1 : a.type = "click"
  · rw [if_pos h1]; simp
  rw [if_neg h1]
  by_cases h2 : a.type = "double_click" ∨ a.type = "doubleClick" ∨
    a.type = "doubleclick"
  · rw [if_pos h2]; simp
  rw [if_neg h2]
  by_cases h3 : a.type = "right_click" ∨ a.type = "rightClick" ∨
    a.type = "rightclick"
  · rw [if_pos h3]; simp
  rw [if_neg h3]
  by_cases h4 : a.type = "type" ∨ a.type = "input"
  · rw [if_pos h4]
    rcases htext : a.text with _ | txt
    · exact absurd htext (h h4)
    · simp [htext]
  rw [if_neg h4]
  by_cases h5 : a.type = "hotkey"
  · rw [if_pos h5]
    exact jsError_not_mem_hotkeyPlan _ m
  rw [if_neg h5]
  by_cases h6 : a.type = "press" ∨ a.type = "key"
  · rw [if_pos h6]; simp
  rw [if_neg h6]
  by_cases h7 : a.type = "scroll"
  · rw [if_pos h7]
    by_cases h7b : (a.x.isSome && a.y.isSome) = true
    · rw [if_pos h7b]
      exact jsError_not_mem_scrollAtPlan _ _ _ _ m
    · rw [if_neg h7b]
      exact jsError_not_mem_scrollPlan _ _ m
  rw [if_neg h7]
  by_cases h8 : a.type = "wait"
  · rw [if_pos h8]; simp
  rw [if_neg h8]
  by_cases h9 : a.type = "goto" ∨ a.type = "navigate"
  · rw [if_pos h9]; simp
  rw [if_neg h9]
  by_cases h10 : a.type = "hover"
  · rw [if_pos h10]; simp
  rw [if_neg h10]
  by_cases h11 : a.type = "drag"
  · rw [if_pos h11]; simp
  rw [if_neg h11]
  by_cases h12 : a.type = "select"
  · rw [if_pos h12]; simp
  rw [if_neg h12]
  by_cases h13 : a.type = "upload"
  · rw [if_pos h13]; simp
  rw [if_neg h13]
  by_cases h14 : a.type = "done" ∨ a.type = "complete"
  · rw [if_pos h14]; simp
  rw [if_neg h14]
  by_cases h15 : a.type = "call_user"
  · rw [if_pos h15]; simp
  rw [if_neg h15]
  simp

/-- C6 amended: the 300 ms settle delay is performed after execution and
before return for every action whose execution does not throw - that is,
whose backend calls all succeed and which is not a type or input action
with an absent text field; a type or input action with no text throws a
TypeError in controller code before any backend call, and the rejection
propagates with the settle delay skipped. -/
theorem claim_C6_settle_delay (a : Action) (dims : Dims)
    (h : (a.type = "type" ∨ a.type = "input") → a.text ≠ none) :
    ((executeAction true (fun _ => false) a dims).error = none ∧
     (executeAction true (fun _ => false) a dims).events.getLast? =
       some (Event.wait 300)) ∧
    (∀ (b : Action) (d : Dims), (b.type = "type" ∨ b.type = "input") →
      b.text = none →
      (executeAction true (fun _ => false) b d).error =
        some "TypeError: Cannot read properties of undefined (reading substring)" ∧
      Event.wait 300 ∉ (executeAction true (fun _ => false) b d).events) := by
  have hplan := dispatchPlan_no_jsError a dims h
  have hfull : ∀ m, Event.jsError m ∉ dispatchPlan a dims ++ [Event.wait 300] := by
    intro m
    simp [List.mem_append, hplan m]
  refine ⟨⟨?_, ?_⟩, ?_⟩
  · simp [executeAction, execPlan_noFail _ hfull]
  · simp [executeAction, execPlan_noFail _ hfull, List.getLast?_concat]
  · intro b d hbt hbtext
    rcases hbt with hb | hb <;>
      simp [executeAction, dispatchPlan, execPlan, hb, hbtext]

/-- C6 witness: a concrete click action with a succeeding backend returns
normally with the settle delay as its final event, and a concrete
type action without text throws before the backend with the delay
skipped. -/
theorem claim_C6_settle_delay_witness :
    ((executeAction true (fun _ => false)
        { type := "click", x := some 10, y := some 20 } defaultViewport).error =
      none ∧
     (executeAction true (fun _ => false)
        { type := "click", x := some 10, y := some 20 }
        defaultViewport).events.getLast? = some (Event.wait 300)) ∧
    (∀ (b : Action) (d : Dims), (b.type = "type" ∨ b.type = "input") →
      b.text = none →
      (executeAction true (fun _ => false) b d).error =
        some "TypeError: Cannot read properties of undefined (reading substring)" ∧
      Event.wait 300 ∉ (executeAction true (fun _ => false) b d).events) :=
  claim_C6_settle_delay { type := "click", x := some 10, y := some 20 }
    defaultViewport (by decide)

/-- The action type strings recognized by the switch of executeAction. -/
def recognizedTypes : List String :=
  ["click", "double_click", "doubleClick", "doubleclick", "right_click", "rightClick",
   "rightclick", "type", "input", "hotkey", "press", "key", "scroll", "wait", "goto",
   "navigate", "hover", "drag", "select", "upload", "done", "complete", "call_user"]

/-- C9: executing an action whose type is not one of the recognized cases
performs no backend call and raises no error: only the warning of the
default case is logged, the 300 ms settle delay still runs, and the call
returns normally. -/
theorem claim_C9_unknown_action_dropped (a : Action) (dims : Dims)
    (fail : BackendCall → Bool) (h : a.type ∉ recognizedTypes) :
    executeAction true fail a dims =
      ⟨[Event.warn ("[Browser] Unknown action type: " ++ a.type), Event.wait 300],
        none⟩ := by
  simp only [recognizedTypes, List.mem_cons, List.not_mem_nil, or_false, not_or] at h
  obtain ⟨h1, h2, h3, h4, h5, h6, h7, h8, h9, h10, h11, h12, h13, h14, h15, h16, h17,
    h18, h19, h20, h21, h22, h23⟩ := h
  simp [executeAction, dispatchPlan, execPlan, h1, h2, h3, h4, h5, h6, h7, h8, h9,
    h10, h11, h12, h13, h14, h15, h16, h17, h18, h19, h20, h21, h22, h23]

/-- C9 witness: a concrete unrecognized action type is dropped with only
the warning and the settle delay. -/
theorem claim_C9_unknown_action_dropped_witness :
    executeAction true (fun _ => false) { type := "zzz" } defaultViewport =
      ⟨[Event.warn ("[Browser] Unknown action type: " ++ "zzz"), Event.wait 300],
        none⟩ :=
  claim_C9_unknown_action_dropped { type := "zzz" } defaultViewport
    (fun _ => false) (by decide)


/-- C5: stopping is idempotent - after close the controller holds no
browser, context or page and reports itself inactive; closing again
changes nothing and performs no backend close calls; closing the
never-started controller is likewise a no-op, not an error. -/
theorem claim_C5_stop_idempotent (s : BrowserState) :
    (close s).1.browser = none ∧ (close s).1.context = none ∧
    (close s).1.page = none ∧ (close s).1.isRunning = false ∧
    isActive (close s).1 = false ∧
    close (close s).1 = ((close s).1, []) ∧
    close initialState = (initialState, []) :=
  ⟨rfl, rfl, rfl, rfl, rfl, rfl, rfl⟩

/-- Invariant carried through the live-browser accounting: the accumulator
is exactly the optional browser handle of the state, and every live handle
is below the fresh-handle supply. -/
def goodAcc (s : BrowserState) (acc : List ℕ) : Prop :=
  acc = s.browser.toList ∧ ∀ h ∈ acc, h < s.nextHandle

/-- Folding the events of close over an accumulator that matches the state
leaves no live browser. -/
theorem foldl_close_events (s : BrowserState) (acc : List ℕ)
    (hacc : acc = s.browser.toList) :
    ((close s).2).foldl liveStep acc = [] := by
  cases hb : s.browser <;> cases hp : s.page <;> cases hc : s.context <;>
    simp_all [close, liveStep]

/-- One lifecycle operation preserves the live-browser invariant. -/
theorem goodAcc_applyOp (s : BrowserState) (acc : List ℕ) (o : LifeOp)
    (hg : goodAcc s acc) :
    goodAcc (applyOp s o).1 (((applyOp s o).2).foldl liveStep acc) := by
  obtain ⟨hacc, hlt⟩ := hg
  cases o with
  | close =>
    refine ⟨?_, ?_⟩
    · simpa [applyOp] using foldl_close_events s acc hacc
    · intro h hmem
      rw [applyOp, foldl_close_events s acc hacc] at hmem
      exact absurd hmem (List.not_mem_nil h)
  | launch =>
    cases hb : s.browser with
    | none =>
      constructor
      · simp [applyOp, launch, hb, liveStep, hacc]
      · intro h hmem
        simp [applyOp, launch, hb, liveStep, hacc] at hmem
        simp [applyOp, launch, hb, hmem]
    | some h0 =>
      have hfold := foldl_close_events s acc hacc
      constructor
      · simp [applyOp, launch, hb, List.foldl_append, hfold, liveStep]
      · intro h hmem
        simp [applyOp, launch, hb, List.foldl_append, hfold, liveStep] at hmem
        simp [applyOp, launch, hb, hmem]

/-- The live-browser invariant holds after any operation sequence. -/
theorem goodAcc_runOps (ops : List LifeOp) :
    ∀ (s : BrowserState) (acc : List ℕ), goodAcc s acc →
      goodAcc (runOps s ops).1 (((runOps s ops).2).foldl liveStep acc) := by
  induction ops with
  | nil => intro s acc hg; simpa [runOps]
  | cons o rest ih =>
    intro s acc hg
    have hstep := goodAcc_applyOp s acc o hg
    have := ih (applyOp s o).1 (((applyOp s o).2).foldl liveStep acc) hstep
    simpa [runOps, List.foldl_append]

/-- C3: at most one browser automation context exists at any time - after
any sequence of launch and close operations on the single exported
controller the set of launched-and-not-closed browsers has at most one
element; and launching while a browser is open first emits the full close
sequence of the old browser (which closes its handle) before the launch
events of the new one. -/
theorem claim_C3_single_session :
    (∀ ops : List LifeOp,
      (liveBrowsers (runOps initialState ops).2).length ≤ 1) ∧
    (∀ (s : BrowserState) (h : ℕ), s.browser = some h →
      (launch s).2 = (close s).2 ++
        [LifeEvent.launchedBrowser s.nextHandle,
         LifeEvent.launchedContext (s.nextHandle + 1),
         LifeEvent.launchedPage (s.nextHandle + 2)] ∧
      LifeEvent.closedBrowser h ∈ (close s).2) := by
  constructor
  · intro ops
    have hinit : goodAcc initialState [] := ⟨rfl, by intro h hmem; cases hmem⟩
    have hfin := goodAcc_runOps ops initialState [] hinit
    rw [liveBrowsers, hfin.1]
    cases (runOps initialState ops).1.browser <;> simp
  · intro s h hb
    constructor
    · simp [launch, close, hb]
    · simp [close, hb]

/-- C3 witness: two consecutive launches keep at most one live browser,
and a launch over the concrete state holding browser 5 closes it before
launching the fresh browser. -/
theorem claim_C3_single_session_witness :
    (liveBrowsers (runOps initialState [LifeOp.launch, LifeOp.launch]).2).length ≤ 1 ∧
    ((launch ⟨some 5, some 6, some 7, true, 8⟩).2 =
      (close ⟨some 5, some 6, some 7, true, 8⟩).2 ++
        [LifeEvent.launchedBrowser 8, LifeEvent.launchedContext (8 + 1),
         LifeEvent.launchedPage (8 + 2)] ∧
      LifeEvent.closedBrowser 5 ∈ (close ⟨some 5, some 6, some 7, true, 8⟩).2) :=
  ⟨claim_C3_single_session.1 [LifeOp.launch, LifeOp.launch],
   claim_C3_single_session.2 ⟨some 5, some 6, some 7, true, 8⟩ 5 rfl⟩


/-- C7: whenever the primary dispatch of a click fails and an interactive
element is found at the requested point, the element-center retarget is
attempted and, on its success, the result reports healed with
healingMethod element_center, overall success, and no double-click attempt
is made. -/
theorem claim_C7_element_center (env : HealEnv) (p : ℚ × ℚ) (el : PageElement)
    (hfail : env.dispatch p ClickKind.single = false)
    (hel : env.elementAt p = some el)
    (hint : el.interactive = true)
    (hre : env.dispatch (elementCenter el) ClickKind.single = true) :
    selfHealClick env p =
      ⟨true, true, some "element_center", ["primary", "element_center"]⟩ ∧
    "double_click" ∉ (selfHealClick env p).attempts := by
  have hres : selfHealClick env p =
      ⟨true, true, some "element_center", ["primary", "element_center"]⟩ := by
    simp [selfHealClick, hfail, hel, hint, hre]
  refine ⟨hres, ?_⟩
  rw [hres]
  decide

/-- A concrete interactive element occupying the origin, with geometric
center (15, 25). -/
def healDemoElement : PageElement := ⟨10, 20, 10, 10, true⟩

/-- A concrete healing environment: clicks only succeed on the vertical
line through 15, and the element lookup finds healDemoElement on the
vertical line through 0. -/
def healDemoEnv : HealEnv :=
  ⟨fun q _ => decide (q.1 = 15), fun q => if q.1 = 0 then some healDemoElement else none⟩

/-- C7 witness: in the concrete environment the primary click at the
origin fails, the element lookup finds the interactive element, and the
retargeted click on its center succeeds with healingMethod element_center
and no double-click attempt. -/
theorem claim_C7_element_center_witness :
    selfHealClick healDemoEnv (0, 0) =
      ⟨true, true, some "element_center", ["primary", "element_center"]⟩ ∧
    "double_click" ∉ (selfHealClick healDemoEnv (0, 0)).attempts :=
  claim_C7_element_center healDemoEnv (0, 0) healDemoElement
    (by norm_num [healDemoEnv])
    (by norm_num [healDemoEnv])
    rfl
    (by norm_num [healDemoEnv, elementCenter, healDemoElement])


/-- Processing one more action extends the detector run by one step. -/
theorem runDetector_append_one (es : List HEntry) (e : HEntry) :
    runDetector (es ++ [e]) = detStep (runDetector es) e := by
  simp [runDetector, List.foldl_append]

/-- The flag stream of an extended action stream is the old flag stream
plus one flag for the new action: earlier flags are never revisited. -/
theorem loopFlags_append_one (es : List HEntry) (e : HEntry) :
    loopFlags (es ++ [e]) =
      loopFlags es ++ [detect (pushBounded (runDetector es).1 e)] := by
  simp [loopFlags, runDetector_append_one, detStep]

/-- The ring buffer of an extended stream is the old buffer with the new
entry pushed. -/
theorem runDetector_fst_append_one (es : List HEntry) (e : HEntry) :
    (runDetector (es ++ [e])).1 = pushBounded (runDetector es).1 e := by
  simp [runDetector_append_one, detStep]

/-- Pushing onto the ring buffer preserves short suffixes: the drop of the
bound only removes entries from the front. -/
theorem pushBounded_suffix (b suf : List HEntry) (e : HEntry)
    (hb : ∃ p, b = p ++ suf) (hlen : suf.length ≤ 9) :
    ∃ q, pushBounded b e = q ++ (suf ++ [e]) := by
  obtain ⟨p, rfl⟩ := hb
  refine ⟨p.drop ((p ++ suf).length + 1 - 10), ?_⟩
  rw [pushBounded, List.append_assoc,
    List.drop_append_of_le_length (by simp; omega)]

/-- Loop detection on a buffer only inspects its three most recent
entries. -/
theorem detect_last3 (p : List HEntry) (e1 e2 e3 : HEntry) :
    detect (p ++ [e1, e2, e3]) = loopTriple e1 e2 e3 := by
  simp [detect, List.reverse_append]

/-- C8: whenever the three most recent entries of an action stream share
one action type and their coordinates lie pairwise within 50 units on
both axes, the LoopDetected flag is emitted on the third such action; and
appending a fourth action only appends one new flag, so the flag of the
third action is never retroactively cleared. -/
theorem claim_C8_loop_detected (hs : List HEntry) (e1 e2 e3 : HEntry)
    (ht1 : e1.actionType = e2.actionType) (ht2 : e2.actionType = e3.actionType)
    (hn1 : coordNear e1.coord e2.coord = true)
    (hn2 : coordNear e1.coord e3.coord = true)
    (hn3 : coordNear e2.coord e3.coord = true) :
    (loopFlags (hs ++ [e1, e2, e3])).getLast? = some true ∧
    ∀ e4 : HEntry, ∃ b : Bool,
      loopFlags (hs ++ [e1, e2, e3] ++ [e4]) =
        loopFlags (hs ++ [e1, e2, e3]) ++ [b] := by
  constructor
  · have hsplit : hs ++ [e1, e2, e3] = ((hs ++ [e1]) ++ [e2]) ++ [e3] := by simp
    rw [hsplit, loopFlags_append_one, List.getLast?_concat]
    have hb1 : ∃ q, (runDetector (hs ++ [e1])).1 = q ++ ([] ++ [e1]) := by
      rw [runDetector_fst_append_one]
      exact pushBounded_suffix _ [] e1 ⟨(runDetector hs).1, by simp⟩ (by simp)
    have hb2 : ∃ q, (runDetector ((hs ++ [e1]) ++ [e2])).1 = q ++ ([e1] ++ [e2]) := by
      rw [runDetector_fst_append_one]
      exact pushBounded_suffix _ [e1] e2 (by simpa using hb1) (by simp)
    have hb3 : ∃ q, pushBounded (runDetector ((hs ++ [e1]) ++ [e2])).1 e3 =
        q ++ ([e1, e2] ++ [e3]) :=
      pushBounded_suffix _ [e1, e2] e3 (by simpa using hb2) (by simp)
    obtain ⟨q, hq⟩ := hb3
    rw [hq]
    have : ([e1, e2] ++ [e3] : List HEntry) = [e1, e2, e3] := by simp
    rw [this, detect_last3]
    simp [loopTriple, ht1, ht2, hn1, hn2, hn3]
  · intro e4
    exact ⟨detect (pushBounded (runDetector (hs ++ [e1, e2, e3])).1 e4),
      loopFlags_append_one (hs ++ [e1, e2, e3]) e4⟩

/-- C8 witness: three consecutive clicks at (100, 100), (120, 110) and
(130, 140) - pairwise within 50 units on both axes - flag a loop on the
third, and a fourth click elsewhere only appends a new flag. -/
theorem claim_C8_loop_detected_witness :
    (loopFlags ([⟨"click", some (100, 100)⟩, ⟨"click", some (120, 110)⟩,
        ⟨"click", some (130, 140)⟩] : List HEntry)).getLast? = some true ∧
    ∀ e4 : HEntry, ∃ b : Bool,
      loopFlags ([⟨"click", some (100, 100)⟩, ⟨"click", some (120, 110)⟩,
          ⟨"click", some (130, 140)⟩] ++ [e4] : List HEntry) =
        loopFlags ([⟨"click", some (100, 100)⟩, ⟨"click", some (120, 110)⟩,
          ⟨"click", some (130, 140)⟩] : List HEntry) ++ [b] :=
  claim_C8_loop_detected [] ⟨"click", some (100, 100)⟩ ⟨"click", some (120, 110)⟩
    ⟨"click", some (130, 140)⟩ rfl rfl (by decide) (by decide) (by decide)

end Bridge
